import Mathlib

/-!
Verification development for the ConfigurationSource interface of the
AspNetCoreModuleV2 common library
(src/Servers/IIS/AspNetCoreModuleV2/CommonLib/ConfigurationSource.h).

The header declares five wide-string constants naming IIS configuration
section paths and an abstract class ConfigurationSource with a pure-virtual
const method GetSection and a non-virtual const method GetRequiredSection.
Wide strings are modelled as Lean strings.  The body of GetRequiredSection
and the behaviour of concrete GetSection implementations are not part of
the visible source, so those parts are modelled from the specification as
indicated in the doc comments below.
-/

/-- Section-path constant from ConfigurationSource.h line 13. -/
def CS_ASPNETCORE_SECTION : String :=
  "system.webServer/httpPlatform"

/-- Section-path constant from ConfigurationSource.h line 14. -/
def CS_WINDOWS_AUTHENTICATION_SECTION : String :=
  "system.webServer/security/authentication/windowsAuthentication"

/-- Section-path constant from ConfigurationSource.h line 15. -/
def CS_BASIC_AUTHENTICATION_SECTION : String :=
  "system.webServer/security/authentication/basicAuthentication"

/-- Section-path constant from ConfigurationSource.h line 16. -/
def CS_ANONYMOUS_AUTHENTICATION_SECTION : String :=
  "system.webServer/security/authentication/anonymousAuthentication"

/-- Section-path constant from ConfigurationSource.h line 17. -/
def CS_MAX_REQUEST_BODY_SIZE_SECTION : String :=
  "system.webServer/security/requestFiltering"

/-- The complete list of string constants naming configuration paths that
ConfigurationSource.h defines (one per define directive, lines 13 to 17). -/
def sectionNameConstants : List String :=
  [CS_ASPNETCORE_SECTION,
   CS_WINDOWS_AUTHENTICATION_SECTION,
   CS_BASIC_AUTHENTICATION_SECTION,
   CS_ANONYMOUS_AUTHENTICATION_SECTION,
   CS_MAX_REQUEST_BODY_SIZE_SECTION]

/-- Modelled from the spec: ConfigurationSection is an external opaque
result value (declared in ConfigurationSection.h, which is not part of the
visible source).  It is represented abstractly by an identifier; equality of
identifiers stands for identity of the shared reference. -/
structure ConfigurationSection where
  sectionId : Nat
deriving DecidableEq

/-- Modelled from the spec: the error condition raised by
GetRequiredSection, of kind missing-required-configuration, carrying the
requested section name. -/
inductive ConfigErrorKind where
  | missingRequiredConfiguration : String → ConfigErrorKind
deriving DecidableEq

/-- A ConfigurationSource instance.  The class is abstract with the single
pure-virtual method GetSection, so a concrete implementation is determined
by its GetSection behaviour: a function from section name to a shared
reference (some) or null (none). -/
structure ConfigurationSource where
  getSection : String → Option ConfigurationSection

/-- The virtual method GetSection (ConfigurationSource.h line 24): dispatch
to the concrete implementation's lookup behaviour. -/
def ConfigurationSource.GetSection (src : ConfigurationSource)
    (name : String) : Option ConfigurationSection :=
  src.getSection name

/-- Modelled from the spec: the body of GetRequiredSection is in a source
file outside the visible fragment; the spec states that it delegates to
GetSection and, when the result is empty/null, fails with a
missing-required-configuration error rather than returning an empty
result. -/
def ConfigurationSource.GetRequiredSection (src : ConfigurationSource)
    (name : String) : Except ConfigErrorKind ConfigurationSection :=
  match src.GetSection name with
  | some s => Except.ok s
  | none => Except.error (ConfigErrorKind.missingRequiredConfiguration name)

/-- Modelled from the spec: the underlying configuration store is an
external collaborator supplying section data addressed by path strings;
it is represented as an association list from section names to sections. -/
def storeLookup (store : List (String × ConfigurationSection))
    (name : String) : Option ConfigurationSection :=
  match store with
  | [] => none
  | (k, v) :: rest => if k = name then some v else storeLookup rest name

/-- Modelled from the spec: a store-backed ConfigurationSource, whose
GetSection returns the store's entry for a present name and null for an
absent one. -/
def ConfigurationSource.ofStore
    (store : List (String × ConfigurationSection)) : ConfigurationSource :=
  ⟨fun name => storeLookup store name⟩

/-- A call of the const method GetSection, embedded as a state transformer:
the pair of the returned value and the post-call object state. -/
def ConfigurationSource.getSectionCall (src : ConfigurationSource)
    (name : String) : Option ConfigurationSection × ConfigurationSource :=
  (src.GetSection name, src)

/-- A call of the const method GetRequiredSection, embedded as a state
transformer: the pair of the returned value and the post-call object
state. -/
def ConfigurationSource.getRequiredSectionCall (src : ConfigurationSource)
    (name : String) :
    Except ConfigErrorKind ConfigurationSection × ConfigurationSource :=
  (src.GetRequiredSection name, src)

/-- The single base-class definition of GetRequiredSection, written as a
function of an arbitrary GetSection behaviour, following the spec's words:
delegate to GetSection and turn an empty result into a
missing-required-configuration error. -/
def getRequiredSectionOfBase
    (getSection : String → Option ConfigurationSection)
    (name : String) : Except ConfigErrorKind ConfigurationSection :=
  match getSection name with
  | some s => Except.ok s
  | none => Except.error (ConfigErrorKind.missingRequiredConfiguration name)

/-- Helper: looking up a name that is not among the store's keys yields
none. -/
theorem storeLookup_eq_none_of_not_mem
    (store : List (String × ConfigurationSection)) (name : String)
    (h : name ∉ store.map Prod.fst) : storeLookup store name = none := by
  induction store with
  | nil => rfl
  | cons p rest ih =>
    obtain ⟨k, v⟩ := p
    simp only [List.map_cons, List.mem_cons, not_or] at h
    have hk : ¬ k = name := fun hk => h.1 hk.symm
    simp only [storeLookup, if_neg hk]
    exact ih h.2

/-- Helper: looking up a name that is among the store's keys yields some
entry of the store carrying that name. -/
theorem storeLookup_exists_of_mem
    (store : List (String × ConfigurationSection)) (name : String)
    (h : name ∈ store.map Prod.fst) :
    ∃ s, storeLookup store name = some s ∧ (name, s) ∈ store := by
  induction store with
  | nil => simp at h
  | cons p rest ih =>
    obtain ⟨k, v⟩ := p
    by_cases hk : k = name
    · subst hk
      exact ⟨v, by simp [storeLookup], by simp⟩
    · simp only [List.map_cons, List.mem_cons] at h
      rcases h with h | h
      · exact absurd h.symm hk
      · obtain ⟨s, hs, hmem⟩ := ih h
        exact ⟨s, by simp [storeLookup, if_neg hk, hs], List.mem_cons_of_mem _ hmem⟩

/-- C1: for every section name absent from the underlying configuration
store, GetRequiredSection fails with a missing-required-configuration error
carrying that name, and hence never returns a null/empty or ok result. -/
theorem getRequiredSection_absent_fails
    (store : List (String × ConfigurationSection)) (name : String)
    (h : name ∉ store.map Prod.fst) :
    (ConfigurationSource.ofStore store).GetRequiredSection name =
      Except.error (ConfigErrorKind.missingRequiredConfiguration name) := by
  have hl : storeLookup store name = none :=
    storeLookup_eq_none_of_not_mem store name h
  simp [ConfigurationSource.GetRequiredSection, ConfigurationSource.GetSection,
    ConfigurationSource.ofStore, hl]

/-- Witness for C1: on a store holding only the httpPlatform section, the
basicAuthentication name is absent and GetRequiredSection fails with the
missing-required-configuration error. -/
theorem getRequiredSection_absent_fails_witness :
    CS_BASIC_AUTHENTICATION_SECTION ∉
      ([(CS_ASPNETCORE_SECTION, ConfigurationSection.mk 0)].map Prod.fst) ∧
    (ConfigurationSource.ofStore
        [(CS_ASPNETCORE_SECTION, ConfigurationSection.mk 0)]).GetRequiredSection
        CS_BASIC_AUTHENTICATION_SECTION =
      Except.error (ConfigErrorKind.missingRequiredConfiguration
        CS_BASIC_AUTHENTICATION_SECTION) :=
  ⟨by decide,
   getRequiredSection_absent_fails
     [(CS_ASPNETCORE_SECTION, ConfigurationSection.mk 0)]
     CS_BASIC_AUTHENTICATION_SECTION (by decide)⟩

/-- C2: for every section name present in the underlying store,
GetRequiredSection returns (as an ok result) the same non-null shared
reference that GetSection returns. -/
theorem getRequiredSection_present_delegates
    (store : List (String × ConfigurationSection)) (name : String)
    (h : name ∈ store.map Prod.fst) :
    ∃ s, (ConfigurationSource.ofStore store).GetSection name = some s ∧
      (ConfigurationSource.ofStore store).GetRequiredSection name =
        Except.ok s := by
  obtain ⟨s, hs, _⟩ := storeLookup_exists_of_mem store name h
  refine ⟨s, ?_, ?_⟩
  · simpa [ConfigurationSource.GetSection, ConfigurationSource.ofStore] using hs
  · simp [ConfigurationSource.GetRequiredSection, ConfigurationSource.GetSection,
      ConfigurationSource.ofStore, hs]

/-- Witness for C2: on a store holding the httpPlatform section, looking up
that name with GetRequiredSection yields the very section GetSection
yields. -/
theorem getRequiredSection_present_delegates_witness :
    CS_ASPNETCORE_SECTION ∈
      ([(CS_ASPNETCORE_SECTION, ConfigurationSection.mk 7)].map Prod.fst) ∧
    ∃ s, (ConfigurationSource.ofStore
            [(CS_ASPNETCORE_SECTION, ConfigurationSection.mk 7)]).GetSection
            CS_ASPNETCORE_SECTION = some s ∧
      (ConfigurationSource.ofStore
          [(CS_ASPNETCORE_SECTION, ConfigurationSection.mk 7)]).GetRequiredSection
          CS_ASPNETCORE_SECTION = Except.ok s :=
  ⟨by decide,
   getRequiredSection_present_delegates
     [(CS_ASPNETCORE_SECTION, ConfigurationSection.mk 7)]
     CS_ASPNETCORE_SECTION (by decide)⟩

/-- C3: for every section name absent from the underlying store, GetSection
returns the null/empty result none; the return type Option carries no error
alternative, so absence is signalled only through the empty result. -/
theorem getSection_absent_none
    (store : List (String × ConfigurationSection)) (name : String)
    (h : name ∉ store.map Prod.fst) :
    (ConfigurationSource.ofStore store).GetSection name = none := by
  simpa [ConfigurationSource.GetSection, ConfigurationSource.ofStore] using
    storeLookup_eq_none_of_not_mem store name h

/-- Witness for C3: on a store holding only the httpPlatform section,
GetSection on the basicAuthentication name returns none. -/
theorem getSection_absent_none_witness :
    CS_BASIC_AUTHENTICATION_SECTION ∉
      ([(CS_ASPNETCORE_SECTION, ConfigurationSection.mk 0)].map Prod.fst) ∧
    (ConfigurationSource.ofStore
        [(CS_ASPNETCORE_SECTION, ConfigurationSection.mk 0)]).GetSection
        CS_BASIC_AUTHENTICATION_SECTION = none :=
  ⟨by decide,
   getSection_absent_none [(CS_ASPNETCORE_SECTION, ConfigurationSection.mk 0)]
     CS_BASIC_AUTHENTICATION_SECTION (by decide)⟩

/-- C4: for every section name present in the underlying store, GetSection
returns a non-null shared reference that is an entry of the store for that
very name. -/
theorem getSection_present_entry
    (store : List (String × ConfigurationSection)) (name : String)
    (h : name ∈ store.map Prod.fst) :
    ∃ s, (ConfigurationSource.ofStore store).GetSection name = some s ∧
      (name, s) ∈ store := by
  obtain ⟨s, hs, hmem⟩ := storeLookup_exists_of_mem store name h
  exact ⟨s, by
    simpa [ConfigurationSource.GetSection, ConfigurationSource.ofStore] using hs,
    hmem⟩

/-- Witness for C4: on a store holding the requestFiltering section,
GetSection on that name returns some section that is an entry of the
store. -/
theorem getSection_present_entry_witness :
    CS_MAX_REQUEST_BODY_SIZE_SECTION ∈
      ([(CS_MAX_REQUEST_BODY_SIZE_SECTION,
          ConfigurationSection.mk 3)].map Prod.fst) ∧
    ∃ s, (ConfigurationSource.ofStore
            [(CS_MAX_REQUEST_BODY_SIZE_SECTION,
               ConfigurationSection.mk 3)]).GetSection
            CS_MAX_REQUEST_BODY_SIZE_SECTION = some s ∧
      (CS_MAX_REQUEST_BODY_SIZE_SECTION, s) ∈
        [(CS_MAX_REQUEST_BODY_SIZE_SECTION, ConfigurationSection.mk 3)] :=
  ⟨by decide,
   getSection_present_entry
     [(CS_MAX_REQUEST_BODY_SIZE_SECTION, ConfigurationSection.mk 3)]
     CS_MAX_REQUEST_BODY_SIZE_SECTION (by decide)⟩

/-- Counterexample for C5: the header does not define exactly four string
constants naming configuration paths; the list of its path constants has
length five, not four. -/
theorem sectionNameConstants_not_four : ¬ sectionNameConstants.length = 4 := by
  decide

/-- C5 amended: the header defines exactly five string constants naming
configuration paths. -/
theorem sectionNameConstants_length_five : sectionNameConstants.length = 5 := by
  decide

/-- C6: the five section-name constants have exactly the well-known path
values listed in the spec. -/
theorem sectionNameConstants_values :
    CS_ASPNETCORE_SECTION = "system.webServer/httpPlatform" ∧
    CS_WINDOWS_AUTHENTICATION_SECTION =
      "system.webServer/security/authentication/windowsAuthentication" ∧
    CS_BASIC_AUTHENTICATION_SECTION =
      "system.webServer/security/authentication/basicAuthentication" ∧
    CS_ANONYMOUS_AUTHENTICATION_SECTION =
      "system.webServer/security/authentication/anonymousAuthentication" ∧
    CS_MAX_REQUEST_BODY_SIZE_SECTION =
      "system.webServer/security/requestFiltering" :=
  ⟨rfl, rfl, rfl, rfl, rfl⟩

/-- C8: GetSection and GetRequiredSection are const methods; a call,
embedded as a state transformer, returns the looked-up value and leaves the
ConfigurationSource object (and with it the underlying store it is backed
by) unchanged, whether the lookup succeeds or fails. -/
theorem getSection_calls_pure (src : ConfigurationSource) (name : String) :
    (src.getSectionCall name).2 = src ∧
    (src.getRequiredSectionCall name).2 = src ∧
    (src.getSectionCall name).1 = src.GetSection name ∧
    (src.getRequiredSectionCall name).1 = src.GetRequiredSection name :=
  ⟨rfl, rfl, rfl, rfl⟩

/-- C9: GetRequiredSection is non-virtual, so its semantics are uniform
across implementations: it equals the single base-class definition applied
to the implementation's GetSection behaviour, and any two implementations
whose GetSection behaviours agree at a name also agree at that name on
GetRequiredSection. -/
theorem getRequiredSection_nonvirtual_uniform
    (a b : ConfigurationSource) (name : String)
    (h : a.GetSection name = b.GetSection name) :
    a.GetRequiredSection name = getRequiredSectionOfBase a.getSection name ∧
    a.GetRequiredSection name = b.GetRequiredSection name := by
  constructor
  · rfl
  · simp only [ConfigurationSource.GetRequiredSection, h]

/-- Witness for C9: two distinct implementations that agree on the
httpPlatform name (but differ elsewhere) have the same GetRequiredSection
result at that name, equal to the base-class definition's result. -/
theorem getRequiredSection_nonvirtual_uniform_witness :
    (ConfigurationSource.ofStore
        [(CS_ASPNETCORE_SECTION, ConfigurationSection.mk 5)]).GetSection
        CS_ASPNETCORE_SECTION =
      (ConfigurationSource.ofStore
          [(CS_ASPNETCORE_SECTION, ConfigurationSection.mk 5),
           (CS_MAX_REQUEST_BODY_SIZE_SECTION,
             ConfigurationSection.mk 9)]).GetSection CS_ASPNETCORE_SECTION ∧
    (ConfigurationSource.ofStore
        [(CS_ASPNETCORE_SECTION, ConfigurationSection.mk 5)]).GetRequiredSection
        CS_ASPNETCORE_SECTION =
      getRequiredSectionOfBase
        (ConfigurationSource.ofStore
            [(CS_ASPNETCORE_SECTION, ConfigurationSection.mk 5)]).getSection
        CS_ASPNETCORE_SECTION ∧
    (ConfigurationSource.ofStore
        [(CS_ASPNETCORE_SECTION, ConfigurationSection.mk 5)]).GetRequiredSection
        CS_ASPNETCORE_SECTION =
      (ConfigurationSource.ofStore
          [(CS_ASPNETCORE_SECTION, ConfigurationSection.mk 5),
           (CS_MAX_REQUEST_BODY_SIZE_SECTION,
             ConfigurationSection.mk 9)]).GetRequiredSection
          CS_ASPNETCORE_SECTION :=
  ⟨by decide,
   (getRequiredSection_nonvirtual_uniform
      (ConfigurationSource.ofStore
        [(CS_ASPNETCORE_SECTION, ConfigurationSection.mk 5)])
      (ConfigurationSource.ofStore
        [(CS_ASPNETCORE_SECTION, ConfigurationSection.mk 5),
         (CS_MAX_REQUEST_BODY_SIZE_SECTION, ConfigurationSection.mk 9)])
      CS_ASPNETCORE_SECTION (by decide)).1,
   (getRequiredSection_nonvirtual_uniform
      (ConfigurationSource.ofStore
        [(CS_ASPNETCORE_SECTION, ConfigurationSection.mk 5)])
      (ConfigurationSource.ofStore
        [(CS_ASPNETCORE_SECTION, ConfigurationSection.mk 5),
         (CS_MAX_REQUEST_BODY_SIZE_SECTION, ConfigurationSection.mk 9)])
      CS_ASPNETCORE_SECTION (by decide)).2⟩

/-- C10: the five section-name constants are pairwise distinct and
non-empty, so each names a different configuration section. -/
theorem sectionNameConstants_distinct_nonempty :
    sectionNameConstants.Nodup ∧
    ∀ s ∈ sectionNameConstants, s ≠ "" := by
  constructor
  · decide
  · decide
